import Mathlib

/-!
# Verification of the ihhashi dispatch and matching engine

Shallow embedding of the delivery dispatch core of the repository:

* `backend/app/services/matching.py` — `MatchingService` (rider search,
  atomic lock, delivery request flow, assignment retry loop, release);
* `backend/app/services/delivery_fee.py` — fee calculation;
* `backend/app/routes/trips.py` — delivery lifecycle route handlers;
* `backend/app/database/indexes.py` — the TTL index on `riders.locked_at`.

MongoDB operations on a collection are modelled over `List` of records:
`update_one` updates the first matching record, `find_one` returns the
first matching record, `find_one_and_update` with a `$near` filter picks
the matching record nearest to the query point and updates it in one
atomic step.  The haversine distance (transcendental over floats in the
source) is abstracted as a distance-function parameter
`dist : GeoPoint → GeoPoint → ℚ`; nothing proved here depends on its
concrete values.  Wall-clock instants are `Nat`, money and kilometres
are `ℚ`.
-/

namespace Ihhashi

/-- Rider availability status (`riders.status` in the document store). -/
inductive RiderStatus
  | available
  | busy
  | offline
deriving DecidableEq, Repr

/-- Delivery lifecycle status, from `app/models/trip.py` (`DeliveryStatus`). -/
inductive DeliveryStatus
  | pending
  | rider_assigned
  | at_merchant
  | picked_up
  | in_transit
  | arrived
  | delivered
  | cancelled
deriving DecidableEq, Repr

/-- A latitude/longitude pair. -/
structure GeoPoint where
  lat : ℚ
  lng : ℚ
deriving DecidableEq, Repr

/-- A rider (courier) document, shape as used by `MatchingService` and the
TTL index; `rating` and `total_deliveries` stand for the remaining fields
a courier record carries, to make frame statements meaningful. -/
structure Rider where
  id : Nat
  status : RiderStatus
  vehicle_type : String
  location : GeoPoint
  locked_for_delivery : Option Nat
  locked_at : Option Nat
  rating : ℚ
  total_deliveries : Nat
deriving DecidableEq, Repr

/-- MongoDB `update_one`: apply `f` to the first record satisfying `p`,
leave everything else unchanged.  Matching zero records is not an error. -/
def updateOne {α : Type} (p : α → Bool) (f : α → α) : List α → List α
  | [] => []
  | x :: xs => if p x then f x :: xs else x :: updateOne p f xs

/-- Source `MatchingService.release_rider` (matching.py lines 327-338):
`update_one({_id}, {$set: {status: "available", locked_for_delivery: null,
locked_at: null}})`. -/
def release_rider (riderId : Nat) (pool : List Rider) : List Rider :=
  updateOne (fun x => decide (x.id = riderId))
    (fun x => { x with status := .available, locked_for_delivery := none, locked_at := none })
    pool

/-- The filter of `MatchingService.find_and_lock_rider` (matching.py lines
112-124): status `available`, matching vehicle type, id not excluded, and
location within `radius_km` of the pickup point. -/
def riderMatches (dist : GeoPoint → GeoPoint → ℚ) (pickup : GeoPoint) (vt : String)
    (excluded : List Nat) (radius_km : ℚ) (r : Rider) : Bool :=
  decide (r.status = .available) && decide (r.vehicle_type = vt)
    && decide (r.id ∉ excluded) && decide (dist pickup r.location ≤ radius_km)

/-- The `$near` selection: among the records satisfying the filter, the one
nearest to the pickup point (first in collection order on ties). -/
def nearestMatch (dist : GeoPoint → GeoPoint → ℚ) (pickup : GeoPoint) (vt : String)
    (excluded : List Nat) (radius_km : ℚ) (pool : List Rider) : Option Rider :=
  (pool.filter (riderMatches dist pickup vt excluded radius_km)).foldl
    (fun acc r =>
      match acc with
      | none => some r
      | some b => if dist pickup r.location < dist pickup b.location then some r else some b)
    none

/-- The `$set` document of `find_and_lock_rider` (matching.py lines 126-131). -/
def lockUpdate (deliveryId now : Nat) (r : Rider) : Rider :=
  { r with status := .busy, locked_for_delivery := some deliveryId, locked_at := some now }

/-- Source `MatchingService.find_and_lock_rider` (matching.py lines 94-135):
one atomic `find_one_and_update` that selects the nearest available rider
matching the filter and flips it to `busy` with both lock fields set,
returning the post-update document (`return_document=True`), or `None`
when nothing matches. -/
def find_and_lock_rider (dist : GeoPoint → GeoPoint → ℚ) (pickup : GeoPoint) (vt : String)
    (deliveryId : Nat) (excluded : List Nat) (radius_km : ℚ) (now : Nat)
    (pool : List Rider) : Option Rider × List Rider :=
  match nearestMatch dist pickup vt excluded radius_km pool with
  | none => (none, pool)
  | some r =>
      (some (lockUpdate deliveryId now r),
       updateOne (fun x => decide (x.id = r.id)) (lockUpdate deliveryId now) pool)

/-- A schedule of N concurrent `find_and_lock` calls against a shared rider
pool.  Each call's database operation is a single atomic read-modify-write,
so any interleaving of the N calls is some sequential order of the N atomic
steps; the list `ds` of delivery ids gives that order.  Returns each call's
result and the final pool. -/
def lockScheduleRun (dist : GeoPoint → GeoPoint → ℚ) (pickup : GeoPoint) (vt : String)
    (radius_km : ℚ) (now : Nat) : List Nat → List Rider → List (Option Rider) × List Rider
  | [], pool => ([], pool)
  | d :: ds, pool =>
      let step := find_and_lock_rider dist pickup vt d [] radius_km now pool
      let rest := lockScheduleRun dist pickup vt radius_km now ds step.2
      (step.1 :: rest.1, rest.2)

/-- MongoDB TTL-index semantics for
`db.riders.create_index("locked_at", expireAfterSeconds=600)`
(indexes.py lines 53-54): the TTL monitor DELETES every document whose
indexed date field is at least 600 seconds in the past; it does not modify
any field of any document.  Documents without a date in the field are kept. -/
def ttlSweepRiders (now : Nat) (pool : List Rider) : List Rider :=
  pool.filter (fun r =>
    match r.locked_at with
    | none => true
    | some t => decide (now < t + 600))

/-! ## Fee calculation (`app/services/delivery_fee.py`) -/

/-- Config `BASE_FEE = 20.0` (delivery_fee.py line 13). -/
def BASE_FEE : ℚ := 20

/-- Config `PER_KM_RATE = 5.0` (delivery_fee.py line 14). -/
def PER_KM_RATE : ℚ := 5

/-- Config `MIN_FEE = 15.0` (delivery_fee.py line 15). -/
def MIN_FEE : ℚ := 15

/-- Config `LONG_DISTANCE_KM = 15` (delivery_fee.py line 16). -/
def LONG_DISTANCE_KM : ℚ := 15

/-- Config `LONG_DISTANCE_RATE = 7.0` (delivery_fee.py line 17). -/
def LONG_DISTANCE_RATE : ℚ := 7

/-- Config `MAX_FEE = 200.0` (delivery_fee.py line 18). -/
def MAX_FEE : ℚ := 200

/-- Config `SURGE_MULTIPLIER = 1.3` (delivery_fee.py line 22). -/
def SURGE_MULTIPLIER : ℚ := 13 / 10

/-- Lookup `VEHICLE_BASE.get(vehicle_type, BASE_FEE)` (delivery_fee.py lines 24-29,
58): per-vehicle base fee with `BASE_FEE` as the fallback for an unknown
vehicle class. -/
def vehicleBase (vt : String) : ℚ :=
  if vt = "bike" then BASE_FEE
  else if vt = "car" then BASE_FEE + 10
  else if vt = "bicycle" then BASE_FEE - 5
  else if vt = "walking" then BASE_FEE - 8
  else BASE_FEE

/-- Tiered distance cost (delivery_fee.py lines 60-64). -/
def distanceCost (distance_km : ℚ) : ℚ :=
  if distance_km ≤ LONG_DISTANCE_KM then distance_km * PER_KM_RATE
  else LONG_DISTANCE_KM * PER_KM_RATE + (distance_km - LONG_DISTANCE_KM) * LONG_DISTANCE_RATE

/-- The surge factor chosen on line 66: the configured multiplier during
surge hours, `1.0` otherwise; the surge-hour test itself is a wall-clock
read abstracted as a Boolean input. -/
def surgeMult (surge : Bool) : ℚ := if surge then SURGE_MULTIPLIER else 1

/-- Python `round(x, 2)`: rounding to two decimal places. -/
def round2 (q : ℚ) : ℚ := (round (q * 100) : ℤ) / 100

/-- The fee-breakdown dict returned by `calculate_delivery_fee`. -/
structure FareBreakdown where
  base_fee : ℚ
  distance_km : ℚ
  distance_cost : ℚ
  surge_multiplier : ℚ
  total : ℚ
  currency : String
deriving DecidableEq, Repr

/-- Source `calculate_delivery_fee` (delivery_fee.py lines 47-76), over the
haversine distance of the two coordinate pairs (always nonnegative),
abstracted here as the `distance_km` input:
`total = max(MIN_FEE, min(MAX_FEE, (base + distance_cost) * surge))`,
every monetary value rounded to two decimals. -/
def calculate_delivery_fee (distance_km : ℚ) (vt : String) (surge : Bool) : FareBreakdown :=
  let base := vehicleBase vt
  let dcost := distanceCost distance_km
  let s := surgeMult surge
  let total := max MIN_FEE (min MAX_FEE ((base + dcost) * s))
  { base_fee := round2 base, distance_km := round2 distance_km,
    distance_cost := round2 dcost, surge_multiplier := s,
    total := round2 total, currency := "ZAR" }

/-- Spec-side notion, from the sentence "clamped to the interval
`[minimum_fee, maximum_fee]`": values below the interval go to its lower
end, values above it to its upper end, values inside stay. -/
def clampInterval (lo hi x : ℚ) : ℚ :=
  if x < lo then lo else if hi < x then hi else x

/-! ## Delivery records and the trips route handlers
(`app/models/trip.py`, `app/routes/trips.py`) -/

/-- A delivery document (`Delivery` in `app/models/trip.py`), with the
fields the dispatch core reads or writes. -/
structure Delivery where
  id : Nat
  order_id : Nat
  customer_id : Nat
  merchant_id : Nat
  rider_id : Option Nat
  vehicle_type : String
  item_count : Nat
  status : DeliveryStatus
  rider_assigned_at : Option Nat
  pickup_time : Option Nat
  delivery_time : Option Nat
  payment_status : String
  cancel_reason : Option String
  cancellation_time : Option Nat
  proof_recipient_name : Option String
  proof_notes : Option String
  fare : Option FareBreakdown
deriving DecidableEq, Repr

/-- The authenticated caller (`current_user`). -/
structure User where
  id : Nat
  user_type : String
deriving DecidableEq, Repr

/-- The mutable document-store state the dispatch core touches:
registered customer ids, the riders collection, the deliveries collection,
and inserted notifications as `(target id, type)` pairs. -/
structure AppState where
  users : List Nat
  riders : List Rider
  deliveries : List Delivery
  notifications : List (Nat × String)
deriving DecidableEq, Repr

/-- An HTTP error response (`HTTPException(status_code, detail)`). -/
structure HttpError where
  status_code : Nat
  detail : String
deriving DecidableEq, Repr

/-- Query `db.deliveries.find_one({"_id": delivery_id})`. -/
def findDelivery (st : AppState) (deliveryId : Nat) : Option Delivery :=
  st.deliveries.find? (fun d => decide (d.id = deliveryId))

/-- Update `db.deliveries.update_one({"_id": delivery_id}, {$set: ...})`. -/
def updateDelivery (st : AppState) (deliveryId : Nat) (f : Delivery → Delivery) : AppState :=
  { st with deliveries := updateOne (fun d => decide (d.id = deliveryId)) f st.deliveries }

/-- Insert `db.notifications.insert_one` / `insert_many`. -/
def pushNotes (st : AppState) (ns : List (Nat × String)) : AppState :=
  { st with notifications := st.notifications ++ ns }

/-- Route `accept_delivery` (trips.py lines 95-144): rider role check, 404 on a
missing delivery, 400 when the delivery is no longer `pending`, otherwise
set `rider_id`, `status = rider_assigned` and `rider_assigned_at`; the
riders collection is never read or written. -/
def accept_delivery (now : Nat) (u : User) (deliveryId : Nat) (st : AppState) :
    Except HttpError AppState :=
  if u.user_type ≠ "rider" then .error ⟨403, "Only riders can accept deliveries"⟩
  else
    match findDelivery st deliveryId with
    | none => .error ⟨404, "Delivery not found"⟩
    | some d =>
        if d.status ≠ .pending then .error ⟨400, "Delivery already assigned"⟩
        else
          .ok (pushNotes
            (updateDelivery st deliveryId (fun x =>
              { x with rider_id := some u.id, status := .rider_assigned,
                       rider_assigned_at := some now }))
            [(d.customer_id, "rider_assigned"), (d.merchant_id, "rider_assigned")])

/-- Route `arrived_at_merchant` (trips.py lines 147-177): 404 on a missing
delivery, 403 unless the caller is the assigned rider, then set
`status = at_merchant` unconditionally — the current status is not read. -/
def arrived_at_merchant (u : User) (deliveryId : Nat) (st : AppState) :
    Except HttpError AppState :=
  match findDelivery st deliveryId with
  | none => .error ⟨404, "Delivery not found"⟩
  | some d =>
      if d.rider_id ≠ some u.id then .error ⟨403, "Not your delivery"⟩
      else
        .ok (pushNotes (updateDelivery st deliveryId (fun x => { x with status := .at_merchant }))
          [(d.merchant_id, "rider_arrived")])

/-- Route `order_picked_up` (trips.py lines 180-215): ownership check, then set
`status = picked_up` and `pickup_time` unconditionally. -/
def order_picked_up (now : Nat) (u : User) (deliveryId : Nat) (st : AppState) :
    Except HttpError AppState :=
  match findDelivery st deliveryId with
  | none => .error ⟨404, "Delivery not found"⟩
  | some d =>
      if d.rider_id ≠ some u.id then .error ⟨403, "Not your delivery"⟩
      else
        .ok (pushNotes
          (updateDelivery st deliveryId (fun x =>
            { x with status := .picked_up, pickup_time := some now }))
          [(d.customer_id, "order_picked_up")])

/-- Route `start_delivery` (trips.py lines 218-239): ownership check, then set
`status = in_transit` unconditionally. -/
def start_delivery (u : User) (deliveryId : Nat) (st : AppState) :
    Except HttpError AppState :=
  match findDelivery st deliveryId with
  | none => .error ⟨404, "Delivery not found"⟩
  | some d =>
      if d.rider_id ≠ some u.id then .error ⟨403, "Not your delivery"⟩
      else .ok (updateDelivery st deliveryId (fun x => { x with status := .in_transit }))

/-- Route `arrived_at_delivery` (trips.py lines 242-272): ownership check, then
set `status = arrived` unconditionally. -/
def arrived_at_delivery (u : User) (deliveryId : Nat) (st : AppState) :
    Except HttpError AppState :=
  match findDelivery st deliveryId with
  | none => .error ⟨404, "Delivery not found"⟩
  | some d =>
      if d.rider_id ≠ some u.id then .error ⟨403, "Not your delivery"⟩
      else
        .ok (pushNotes (updateDelivery st deliveryId (fun x => { x with status := .arrived }))
          [(d.customer_id, "rider_arrived")])

/-- The `$set` document of `complete_delivery` (trips.py lines 292-301):
always `status = delivered`, `delivery_time`, `payment_status = completed`;
proof fields only when provided. -/
def completeUpdate (now : Nat) (recipient_name notes : Option String) (d : Delivery) : Delivery :=
  let d1 := { d with status := .delivered, delivery_time := some now,
                     payment_status := "completed" }
  let d2 := match recipient_name with
    | some s => { d1 with proof_recipient_name := some s }
    | none => d1
  match notes with
  | some s => { d2 with proof_notes := some s }
  | none => d2

/-- Route `complete_delivery` (trips.py lines 275-326): ownership check, then the
delivered update unconditionally — the current status is not read. -/
def complete_delivery (now : Nat) (u : User) (deliveryId : Nat)
    (recipient_name notes : Option String) (st : AppState) : Except HttpError AppState :=
  match findDelivery st deliveryId with
  | none => .error ⟨404, "Delivery not found"⟩
  | some d =>
      if d.rider_id ≠ some u.id then .error ⟨403, "Not your delivery"⟩
      else
        .ok (pushNotes (updateDelivery st deliveryId (completeUpdate now recipient_name notes))
          [(d.customer_id, "delivery_completed"), (d.merchant_id, "delivery_completed")])

/-- The `$set` document of `cancel_delivery` (trips.py lines 354-363). -/
def cancelUpdate (now : Nat) (reason : Option String) (d : Delivery) : Delivery :=
  { d with status := .cancelled, cancel_reason := some (reason.getD "cancelled_by_user"),
           cancellation_time := some now }

/-- Route `cancel_delivery` (trips.py lines 329-365): 404 on a missing delivery,
403 unless the caller is the customer, the assigned rider or the merchant,
400 only when the delivery is already `delivered`; from every other status
the cancel update is applied. -/
def cancel_delivery (now : Nat) (u : User) (deliveryId : Nat) (reason : Option String)
    (st : AppState) : Except HttpError AppState :=
  match findDelivery st deliveryId with
  | none => .error ⟨404, "Delivery not found"⟩
  | some d =>
      if ¬(d.customer_id = u.id ∨ d.rider_id = some u.id ∨ d.merchant_id = u.id) then
        .error ⟨403, "Not your delivery"⟩
      else if d.status = .delivered then .error ⟨400, "Cannot cancel completed delivery"⟩
      else .ok (updateDelivery st deliveryId (cancelUpdate now reason))

/-! ## The delivery request flow and assignment loop
(`app/services/matching.py`) -/

/-- The payload of a delivery request as assembled by the `/request` route. -/
structure DeliveryRequestData where
  order_id : Nat
  merchant_id : Nat
  pickup : GeoPoint
  dropoff : GeoPoint
  vehicle_type : String
  item_count : Nat
deriving DecidableEq, Repr

/-- The dict returned by `MatchingService.request_delivery`. -/
structure RequestResult where
  delivery_id : Nat
  status : DeliveryStatus
  fare_estimate : FareBreakdown
deriving DecidableEq, Repr

/-- The statuses the active-delivery check of
`MatchingService.request_delivery` queries (matching.py line 148).  Note:
`arrived` is absent, although the `get_active_delivery` route
(trips.py line 67) counts `arrived` as active. -/
def matchingActiveStatuses : List DeliveryStatus :=
  [.pending, .rider_assigned, .at_merchant, .picked_up, .in_transit]

/-- Source `MatchingService.request_delivery` (matching.py lines 137-185): reject
an unknown customer, reject when the customer has a delivery whose status
is in `matchingActiveStatuses`, otherwise compute the fare, insert a new
`pending` delivery and return.  The background assignment task it spawns is
modelled separately as `assign_rider_with_lock`. -/
def request_delivery (dist : GeoPoint → GeoPoint → ℚ) (surge : Bool) (newId : Nat)
    (customerId : Nat) (dd : DeliveryRequestData) (st : AppState) :
    Except String (RequestResult × AppState) :=
  if ¬ customerId ∈ st.users then .error "Customer not found"
  else if st.deliveries.any (fun d =>
      decide (d.customer_id = customerId) && decide (d.status ∈ matchingActiveStatuses)) then
    .error "Customer already has an active delivery"
  else
    let fare := calculate_delivery_fee (dist dd.pickup dd.dropoff) dd.vehicle_type surge
    let newDelivery : Delivery :=
      { id := newId, order_id := dd.order_id, customer_id := customerId,
        merchant_id := dd.merchant_id, rider_id := none, vehicle_type := dd.vehicle_type,
        item_count := dd.item_count, status := .pending, rider_assigned_at := none,
        pickup_time := none, delivery_time := none, payment_status := "pending",
        cancel_reason := none, cancellation_time := none, proof_recipient_name := none,
        proof_notes := none, fare := some fare }
    .ok (⟨newId, .pending, fare⟩, { st with deliveries := st.deliveries ++ [newDelivery] })

/-- The filter of the conditional assignment update (matching.py lines
210-214): the delivery, and only while still `pending`. -/
def stillPendingFilter (deliveryId : Nat) (d : Delivery) : Bool :=
  decide (d.id = deliveryId) && decide (d.status = .pending)

/-- The `$set` of the conditional assignment update (matching.py lines
215-221). -/
def assignUpdate (riderId now : Nat) (d : Delivery) : Delivery :=
  { d with rider_id := some riderId, status := .rider_assigned,
           rider_assigned_at := some now }

/-- The rider rollback of `_assign_rider_with_lock` (matching.py lines
231-234) when the delivery was no longer `pending`: sets `status` and
`locked_for_delivery` only — its `$set` document does not mention
`locked_at`. -/
def rollbackRelease (r : Rider) : Rider :=
  { r with status := .available, locked_for_delivery := none }

/-- One courier-search call of the assignment loop, as observed at the
`find_and_lock_rider` boundary: the radius passed, the exclusion list
passed, and the locked rider id (or `none`). -/
structure SearchCall where
  radius_km : ℚ
  excluded : List Nat
  result : Option Nat
deriving DecidableEq, Repr

/-- Exhaustion handling of `_assign_rider_with_lock` (matching.py lines
247-254): cancel the delivery with reason `no_riders_available` and notify
the customer. -/
def cancelNoRiders (deliveryId customerId : Nat) (st : AppState) : AppState :=
  pushNotes
    (updateDelivery st deliveryId (fun d =>
      { d with status := .cancelled, cancel_reason := some "no_riders_available" }))
    [(customerId, "delivery_update")]

/-- The retry loop of `_assign_rider_with_lock` (matching.py lines
187-254), with `fuel` remaining attempts and `attempt` the zero-based
attempt index: search with radius `5 + 2 * attempt` km and the accumulated
`attempted` exclusion list (which the source initialises to `[]` and never
appends to); on a lock, conditionally assign the still-`pending` delivery
and notify the rider, or roll the rider back and stop; on no match retry;
after the last attempt cancel the delivery.  Returns the trace of search
calls and the final state. -/
def assignAttempts (dist : GeoPoint → GeoPoint → ℚ) (now deliveryId : Nat)
    (pickup : GeoPoint) (vt : String) (customerId : Nat) :
    Nat → Nat → List Nat → AppState → List SearchCall × AppState
  | 0, _, _, st => ([], cancelNoRiders deliveryId customerId st)
  | fuel + 1, attempt, attempted, st =>
      let radius : ℚ := ((5 + 2 * attempt : Nat) : ℚ)
      match find_and_lock_rider dist pickup vt deliveryId attempted radius now st.riders with
      | (none, riders1) =>
          let rest := assignAttempts dist now deliveryId pickup vt customerId
            fuel (attempt + 1) attempted { st with riders := riders1 }
          (⟨radius, attempted, none⟩ :: rest.1, rest.2)
      | (some r, riders1) =>
          let st1 : AppState := { st with riders := riders1 }
          if st1.deliveries.any (stillPendingFilter deliveryId) then
            let ds2 :=
              updateOne (stillPendingFilter deliveryId) (assignUpdate r.id now) st1.deliveries
            ([⟨radius, attempted, some r.id⟩],
             pushNotes { st1 with deliveries := ds2 } [(r.id, "delivery_request")])
          else
            ([⟨radius, attempted, some r.id⟩],
             { st1 with riders :=
                 updateOne (fun x => decide (x.id = r.id)) rollbackRelease st1.riders })

/-- Source `MatchingService._assign_rider_with_lock`: `max_attempts = 3`,
`attempted_rider_ids = []` (matching.py lines 194-195). -/
def assign_rider_with_lock (dist : GeoPoint → GeoPoint → ℚ) (now deliveryId : Nat)
    (pickup : GeoPoint) (vt : String) (customerId : Nat) (st : AppState) :
    List SearchCall × AppState :=
  assignAttempts dist now deliveryId pickup vt customerId 3 0 [] st

/-! ## Concrete test inputs -/

/-- A concrete busy, locked rider record used as test input. -/
def busyRiderOne : Rider :=
  { id := 1, status := .busy, vehicle_type := "bike", location := ⟨0, 0⟩,
    locked_for_delivery := some 7, locked_at := some 3, rating := 4,
    total_deliveries := 12 }

/-- A concrete available rider used as test input. -/
def availableRiderOne : Rider :=
  { id := 1, status := .available, vehicle_type := "bike", location := ⟨0, 0⟩,
    locked_for_delivery := none, locked_at := none, rating := 5,
    total_deliveries := 20 }

/-- A concrete delivery of customer 3 at merchant 4 assigned to rider 7,
in a given status; used as test input. -/
def trackedDelivery (s : DeliveryStatus) : Delivery :=
  { id := 1, order_id := 2, customer_id := 3, merchant_id := 4, rider_id := some 7,
    vehicle_type := "bike", item_count := 1, status := s, rider_assigned_at := some 1,
    pickup_time := none, delivery_time := none, payment_status := "pending",
    cancel_reason := none, cancellation_time := none, proof_recipient_name := none,
    proof_notes := none, fare := none }

/-- A concrete app state holding exactly `trackedDelivery s`. -/
def trackedState (s : DeliveryStatus) : AppState :=
  { users := [3], riders := [], deliveries := [trackedDelivery s], notifications := [] }

/-- A concrete unassigned `pending` delivery of customer 3. -/
def pendingDelivery : Delivery :=
  { trackedDelivery .pending with rider_id := none, rider_assigned_at := none }

/-- A concrete courier record for rider 7 that is `busy` and locked. -/
def busyRiderSeven : Rider :=
  { id := 7, status := .busy, vehicle_type := "car", location := ⟨1, 1⟩,
    locked_for_delivery := some 99, locked_at := some 50, rating := 3,
    total_deliveries := 5 }

/-- A concrete state: a `pending` delivery while the accepting rider's own
courier record is `busy` and locked for another delivery. -/
def pendingStateBusyRider : AppState :=
  { users := [3], riders := [busyRiderSeven], deliveries := [pendingDelivery],
    notifications := [] }

/-- The net effect of the lock-then-rollback pair on the rider pool: the
first rider carrying the given id becomes `available` with
`locked_for_delivery` cleared and `locked_at` holding the lock time. -/
def rollbackResultRiders (now cid : Nat) (pool : List Rider) : List Rider :=
  updateOne (fun x => decide (x.id = cid))
    (fun x => { x with status := .available, locked_for_delivery := none,
                       locked_at := some now })
    pool

/-- A concrete delivery-request payload of customer 3. -/
def sampleRequestData : DeliveryRequestData :=
  { order_id := 8, merchant_id := 4, pickup := ⟨0, 0⟩, dropoff := ⟨0, 1⟩,
    vehicle_type := "bike", item_count := 1 }

/-- A concrete state: one available rider, while delivery 1 has already
been cancelled out from under the assignment task. -/
def cancelledStateOneRider : AppState :=
  { users := [3], riders := [availableRiderOne],
    deliveries := [trackedDelivery .cancelled], notifications := [] }

/-- A concrete state: a `pending` delivery and an empty rider pool. -/
def pendingStateNoRiders : AppState :=
  { users := [3], riders := [], deliveries := [pendingDelivery], notifications := [] }

/-- Applying `updateOne` over an already-updated list composes the two updates on
the first match, provided the inner update preserves the predicate. -/
theorem updateOne_updateOne {α : Type} (p : α → Bool) (f g : α → α) (l : List α)
    (hg : ∀ x, p (g x) = p x) :
    updateOne p f (updateOne p g l) = updateOne p (fun x => f (g x)) l := by
  induction l with
  | nil => rfl
  | cons x xs ih =>
    by_cases hx : p x = true
    · simp [updateOne, hx, hg]
    · simp [updateOne, hx, ih]

/-- If some record matches `p`, then `updateOne p f` produces the image
under `f` of a matching record as a member of the result. -/
theorem updateOne_mem_of_exists {α : Type} (p : α → Bool) (f : α → α) (l : List α)
    (x : α) (hx : x ∈ l) (hpx : p x = true) :
    ∃ z, z ∈ l ∧ p z = true ∧ f z ∈ updateOne p f l := by
  induction l with
  | nil => cases hx
  | cons y ys ih =>
    by_cases hy : p y = true
    · exact ⟨y, List.mem_cons_self y ys, hy, by simp [updateOne, hy]⟩
    · rcases List.mem_cons.mp hx with h | h
      · exact absurd (h ▸ hpx) (by simpa using hy)
      · rcases ih h with ⟨z, hz, hpz, hfz⟩
        exact ⟨z, List.mem_cons_of_mem y hz, hpz, by simp [updateOne, hy, hfz]⟩

/-- C9.  `release(courier_id)` is idempotent: a second call in a row
changes nothing, raises no error (the operation is total), and after a
single call every courier record carrying the released id is present with
status `available` and both lock fields cleared. -/
theorem release_rider_idempotent (riderId : Nat) (pool : List Rider) :
    release_rider riderId (release_rider riderId pool) = release_rider riderId pool
    ∧ ∀ x ∈ pool, x.id = riderId →
        ∃ y ∈ release_rider riderId pool,
          y.id = riderId ∧ y.status = .available
            ∧ y.locked_for_delivery = none ∧ y.locked_at = none := by
  constructor
  · unfold release_rider
    rw [updateOne_updateOne]
    intro x
    simp
  · intro x hx hid
    have := updateOne_mem_of_exists (fun z => decide (z.id = riderId))
      (fun z => { z with status := .available, locked_for_delivery := none, locked_at := none })
      pool x hx (by simpa using hid)
    rcases this with ⟨z, _, hpz, hfz⟩
    refine ⟨_, hfz, ?_, rfl, rfl, rfl⟩
    simpa using hpz

/-- Mapping a function that fixes every member leaves a list unchanged. -/
theorem map_fix_eq_self {α : Type} (g : α → α) (l : List α)
    (h : ∀ x ∈ l, g x = x) : l.map g = l := by
  induction l with
  | nil => rfl
  | cons x xs ih =>
    simp only [List.map_cons]
    rw [h x (List.mem_cons_self x xs), ih (fun y hy => h y (List.mem_cons_of_mem x hy))]

/-- When rider ids are pairwise distinct, updating the first record with a
given id is the same as mapping a conditional update over the pool. -/
theorem updateOne_id_eq_map (cid : Nat) (f : Rider → Rider) (pool : List Rider)
    (hnodup : (pool.map Rider.id).Nodup) :
    updateOne (fun x => decide (x.id = cid)) f pool
      = pool.map (fun x => if x.id = cid then f x else x) := by
  induction pool with
  | nil => rfl
  | cons x xs ih =>
    simp only [List.map_cons, List.nodup_cons] at hnodup
    by_cases hx : x.id = cid
    · have htail : xs.map (fun y => if y.id = cid then f y else y) = xs := by
        refine map_fix_eq_self _ _ (fun y hy => ?_)
        have : y.id ≠ cid := by
          intro hcon
          apply hnodup.1
          have hyid := List.mem_map_of_mem Rider.id hy
          rwa [hcon, ← hx] at hyid
        simp [this]
      simp [updateOne, hx, htail]
    · simp [updateOne, hx, ih hnodup.2]

/-- A rider flipped to `busy` by the lock update no longer satisfies the
`status = available` part of the search filter. -/
theorem riderMatches_lockUpdate_false (dist : GeoPoint → GeoPoint → ℚ)
    (pickup : GeoPoint) (vt : String) (excluded : List Nat) (radius_km : ℚ)
    (deliveryId now : Nat) (r : Rider) :
    riderMatches dist pickup vt excluded radius_km (lockUpdate deliveryId now r) = false := by
  simp [riderMatches, lockUpdate]

/-- When the filter selects exactly one rider, `$near` returns that rider. -/
theorem nearestMatch_singleton (dist : GeoPoint → GeoPoint → ℚ) (pickup : GeoPoint)
    (vt : String) (excluded : List Nat) (radius_km : ℚ) (pool : List Rider) (c : Rider)
    (hone : pool.filter (riderMatches dist pickup vt excluded radius_km) = [c]) :
    nearestMatch dist pickup vt excluded radius_km pool = some c := by
  simp [nearestMatch, hone]

/-- After the unique matching rider is locked, no rider matches the filter. -/
theorem filter_after_lock_nil (dist : GeoPoint → GeoPoint → ℚ) (pickup : GeoPoint)
    (vt : String) (radius_km : ℚ) (deliveryId now : Nat) (pool : List Rider) (c : Rider)
    (hnodup : (pool.map Rider.id).Nodup)
    (hone : pool.filter (riderMatches dist pickup vt [] radius_km) = [c]) :
    (updateOne (fun x => decide (x.id = c.id)) (lockUpdate deliveryId now) pool).filter
        (riderMatches dist pickup vt [] radius_km) = [] := by
  rw [updateOne_id_eq_map c.id _ pool hnodup]
  rw [List.filter_eq_nil_iff]
  intro a ha
  rcases List.mem_map.mp ha with ⟨y, hy, hgy⟩
  by_cases hid : y.id = c.id
  · rw [if_pos hid] at hgy
    rw [← hgy]
    simp [riderMatches_lockUpdate_false]
  · rw [if_neg hid] at hgy
    intro hmatch
    have hmem : y ∈ pool.filter (riderMatches dist pickup vt [] radius_km) :=
      List.mem_filter.mpr ⟨hy, by rw [hgy]; exact hmatch⟩
    rw [hone] at hmem
    exact hid (by rw [List.mem_singleton.mp hmem])

/-- When nothing matches the filter, every call in a schedule of
`find_and_lock` operations returns no match and leaves the pool unchanged. -/
theorem lockScheduleRun_all_none (dist : GeoPoint → GeoPoint → ℚ) (pickup : GeoPoint)
    (vt : String) (radius_km : ℚ) (now : Nat) (ds : List Nat) (pool : List Rider)
    (hnil : pool.filter (riderMatches dist pickup vt [] radius_km) = []) :
    lockScheduleRun dist pickup vt radius_km now ds pool
      = (List.replicate ds.length none, pool) := by
  induction ds with
  | nil => rfl
  | cons d ds ih =>
    have hstep : find_and_lock_rider dist pickup vt d [] radius_km now pool = (none, pool) := by
      simp [find_and_lock_rider, nearestMatch, hnil]
    simp [lockScheduleRun, hstep, ih, List.replicate_succ]

/-- C1.  For a pool whose filter (available, requested vehicle class, within
the search radius) selects exactly one courier, any sequential order of
N ≥ 2 atomic `find_and_lock` calls — each call is one atomic
read-modify-write re-validating `status = available` inside its filter —
yields exactly one successful lock: the first call in the order receives
the courier flipped to `busy` with `locked_for_delivery` set to that
caller's delivery id and `locked_at` set, and the remaining N−1 calls
return no match (and no call fails: the operation is total). -/
theorem find_and_lock_exactly_one (dist : GeoPoint → GeoPoint → ℚ) (pickup : GeoPoint)
    (vt : String) (radius_km : ℚ) (now : Nat) (ds : List Nat) (pool : List Rider)
    (c : Rider) (hN : 2 ≤ ds.length)
    (hnodup : (pool.map Rider.id).Nodup)
    (hone : pool.filter (riderMatches dist pickup vt [] radius_km) = [c]) :
    ∃ hne : ds ≠ [],
      (lockScheduleRun dist pickup vt radius_km now ds pool).1
        = some (lockUpdate (ds.head hne) now c) :: List.replicate (ds.length - 1) none
      ∧ (lockUpdate (ds.head hne) now c).status = .busy
      ∧ (lockUpdate (ds.head hne) now c).locked_for_delivery = some (ds.head hne)
      ∧ (lockUpdate (ds.head hne) now c).locked_at = some now := by
  match ds, hN with
  | d :: ds, _ =>
    refine ⟨List.cons_ne_nil d ds, ?_, rfl, rfl, rfl⟩
    have hstep : find_and_lock_rider dist pickup vt d [] radius_km now pool
        = (some (lockUpdate d now c),
           updateOne (fun x => decide (x.id = c.id)) (lockUpdate d now) pool) := by
      simp [find_and_lock_rider, nearestMatch_singleton dist pickup vt [] radius_km pool c hone]
    have hrest := lockScheduleRun_all_none dist pickup vt radius_km now ds
      (updateOne (fun x => decide (x.id = c.id)) (lockUpdate d now) pool)
      (filter_after_lock_nil dist pickup vt radius_km d now pool c hnodup hone)
    simp [lockScheduleRun, hstep, hrest]

/-- Witness for C1: one available rider, two concurrent calls; the first
succeeds with the lock fields set, the second returns no match. -/
theorem find_and_lock_exactly_one_witness :
    ∃ hne : ([10, 20] : List Nat) ≠ [],
      (lockScheduleRun (fun _ _ => 1) ⟨0, 0⟩ "bike" 5 99 [10, 20] [availableRiderOne]).1
        = some (lockUpdate (([10, 20] : List Nat).head hne) 99 availableRiderOne)
            :: List.replicate (([10, 20] : List Nat).length - 1) none
      ∧ (lockUpdate (([10, 20] : List Nat).head hne) 99 availableRiderOne).status = .busy
      ∧ (lockUpdate (([10, 20] : List Nat).head hne) 99 availableRiderOne).locked_for_delivery
          = some (([10, 20] : List Nat).head hne)
      ∧ (lockUpdate (([10, 20] : List Nat).head hne) 99 availableRiderOne).locked_at = some 99 :=
  find_and_lock_exactly_one (fun _ _ => 1) ⟨0, 0⟩ "bike" 5 99 [10, 20]
    [availableRiderOne] availableRiderOne (by decide) (by decide) (by decide)

/-- C3.  The repository's only "lock sweeper" is the MongoDB TTL index on
`riders.locked_at` (indexes.py line 54).  TTL expiry deletes the whole
courier document once `locked_at` is 10 minutes old: at `now = 603` the
rider locked at time 3 is removed from the collection — it is not released
back to `available` with cleared lock fields, contradicting both the spec
and the index's own "auto-release" comment; one second earlier the
document is still present and still `busy`. -/
theorem ttl_sweep_deletes_stale_courier :
    ttlSweepRiders 603 [busyRiderOne] = []
    ∧ ttlSweepRiders 602 [busyRiderOne] = [busyRiderOne] := by
  constructor <;> rfl

/-- Witness for C9 at a concrete pool holding a busy, locked rider. -/
theorem release_rider_idempotent_witness :
    (release_rider 1 (release_rider 1 [busyRiderOne])
      = release_rider 1 [busyRiderOne])
    ∧ ∃ y ∈ release_rider 1 [busyRiderOne],
        y.id = 1 ∧ y.status = .available
          ∧ y.locked_for_delivery = none ∧ y.locked_at = none :=
  ⟨(release_rider_idempotent 1 [busyRiderOne]).1,
   (release_rider_idempotent 1 [busyRiderOne]).2 busyRiderOne (by decide) rfl⟩

/-- The source's `max(lo, min(hi, x))` and the spec's clamp-to-interval
agree whenever the interval is nonempty. -/
theorem max_min_eq_clampInterval (lo hi x : ℚ) (h : lo ≤ hi) :
    max lo (min hi x) = clampInterval lo hi x := by
  unfold clampInterval
  split_ifs with h1 h2
  · rw [min_eq_right (le_of_lt (lt_of_lt_of_le h1 h)), max_eq_left (le_of_lt h1)]
  · rw [min_eq_left (le_of_lt h2), max_eq_right h]
  · rw [min_eq_right (not_lt.mp h2), max_eq_right (not_lt.mp h1)]

/-- Rounding to two decimals preserves a lower bound whose hundredfold is
an integer. -/
theorem round2_ge_of_ge (b : ℤ) (x : ℚ) (hx : (b : ℚ) / 100 ≤ x) :
    (b : ℚ) / 100 ≤ round2 x := by
  unfold round2
  have h1 : (b : ℚ) ≤ x * 100 := by
    rw [div_le_iff₀ (by norm_num : (0 : ℚ) < 100)] at hx
    linarith
  have h2 : b ≤ round (x * 100) := by
    rw [round_eq]
    refine le_trans ?_ (Int.floor_le_floor (by linarith : (b : ℚ) ≤ x * 100 + 1 / 2))
    simp
  gcongr

/-- C8.  The fare total is the clamp of
`(base fee + distance cost) × surge multiplier` to
`[minimum_fee, maximum_fee]`, rounded to two decimals; consequently the
total never drops below the configured minimum fee.  (The distance input
stands for the haversine distance of pickup and dropoff, which is
nonnegative.) -/
theorem fee_total_formula_and_min_fee (d : ℚ) (vt : String) (surge : Bool)
    (_hd : 0 ≤ d) :
    (calculate_delivery_fee d vt surge).total
        = round2 (clampInterval MIN_FEE MAX_FEE
            ((vehicleBase vt + distanceCost d) * surgeMult surge))
      ∧ MIN_FEE ≤ (calculate_delivery_fee d vt surge).total := by
  constructor
  · show round2 (max MIN_FEE (min MAX_FEE ((vehicleBase vt + distanceCost d) * surgeMult surge)))
        = _
    rw [max_min_eq_clampInterval MIN_FEE MAX_FEE _ (by norm_num [MIN_FEE, MAX_FEE])]
  · show MIN_FEE
        ≤ round2 (max MIN_FEE (min MAX_FEE ((vehicleBase vt + distanceCost d) * surgeMult surge)))
    have : MIN_FEE = ((1500 : ℤ) : ℚ) / 100 := by norm_num [MIN_FEE]
    rw [this]
    exact round2_ge_of_ge 1500 _ (by
      rw [← this]
      exact le_max_left _ _)

/-- Witness for C8 at distance 3 km, vehicle `bike`, off-peak. -/
theorem fee_total_formula_and_min_fee_witness :
    (calculate_delivery_fee 3 "bike" false).total
        = round2 (clampInterval MIN_FEE MAX_FEE
            ((vehicleBase "bike" + distanceCost 3) * surgeMult false))
      ∧ MIN_FEE ≤ (calculate_delivery_fee 3 "bike" false).total :=
  fee_total_formula_and_min_fee 3 "bike" false (by norm_num)

/-- Running `find?` after `updateOne` with the same predicate returns the image of
the previous first match, provided the update preserves the predicate. -/
theorem find?_updateOne {α : Type} (p : α → Bool) (f : α → α) (l : List α)
    (hpf : ∀ x, p (f x) = p x) :
    (updateOne p f l).find? p = (l.find? p).map f := by
  induction l with
  | nil => rfl
  | cons x xs ih =>
    by_cases hx : p x = true
    · rw [updateOne, if_pos hx,
        List.find?_cons_of_pos _ (by rw [hpf]; exact hx),
        List.find?_cons_of_pos _ hx]
      rfl
    · rw [updateOne, if_neg hx,
        List.find?_cons_of_neg _ hx,
        List.find?_cons_of_neg _ hx]
      exact ih

/-- Reading back an updated delivery by id. -/
theorem findDelivery_updateDelivery (st : AppState) (deliveryId : Nat)
    (f : Delivery → Delivery) (hf : ∀ d, (f d).id = d.id) :
    findDelivery (updateDelivery st deliveryId f) deliveryId
      = (findDelivery st deliveryId).map f :=
  find?_updateOne _ f _ (fun x => by simp [hf])

/-- Inserting notifications does not change the deliveries collection. -/
theorem findDelivery_pushNotes (st : AppState) (ns : List (Nat × String)) (deliveryId : Nat) :
    findDelivery (pushNotes st ns) deliveryId = findDelivery st deliveryId := rfl

/-- The delivered update never changes a delivery's id. -/
theorem completeUpdate_id (now : Nat) (rn nt : Option String) (d : Delivery) :
    (completeUpdate now rn nt d).id = d.id := by
  unfold completeUpdate
  cases rn <;> cases nt <;> rfl

/-- C2 (amended).  Only `accept` validates the current state: with the
caller a rider and the delivery not `pending`, `accept` is rejected (with a
generic message that names neither the current nor the requested state) and
the state is unmodified.  The five rider-progress actions perform no
state-table validation at all: whenever the delivery exists and the caller
is its assigned rider, each of `at-merchant`, `picked-up`, `in-transit`,
`arrived` and `complete` applies its target status unconditionally,
whatever the current status — so out-of-table transitions such as
`rider_assigned → delivered` succeed and change the status. -/
theorem transitions_unvalidated (now : Nat) (u : User) (deliveryId : Nat)
    (st : AppState) (d : Delivery) (rn nt : Option String)
    (hfind : findDelivery st deliveryId = some d)
    (hu : u.user_type = "rider") (hr : d.rider_id = some u.id)
    (hs : d.status ≠ .pending) :
    accept_delivery now u deliveryId st = .error ⟨400, "Delivery already assigned"⟩
    ∧ (∃ st1, arrived_at_merchant u deliveryId st = .ok st1
        ∧ findDelivery st1 deliveryId = some { d with status := .at_merchant })
    ∧ (∃ st2, order_picked_up now u deliveryId st = .ok st2
        ∧ findDelivery st2 deliveryId
            = some { d with status := .picked_up, pickup_time := some now })
    ∧ (∃ st3, start_delivery u deliveryId st = .ok st3
        ∧ findDelivery st3 deliveryId = some { d with status := .in_transit })
    ∧ (∃ st4, arrived_at_delivery u deliveryId st = .ok st4
        ∧ findDelivery st4 deliveryId = some { d with status := .arrived })
    ∧ (∃ st5, complete_delivery now u deliveryId rn nt st = .ok st5
        ∧ findDelivery st5 deliveryId = some (completeUpdate now rn nt d)) := by
  have h1 : arrived_at_merchant u deliveryId st
      = .ok (pushNotes (updateDelivery st deliveryId (fun x => { x with status := .at_merchant }))
          [(d.merchant_id, "rider_arrived")]) := by
    simp [arrived_at_merchant, hfind, hr]
  have h2 : order_picked_up now u deliveryId st
      = .ok (pushNotes (updateDelivery st deliveryId (fun x =>
            { x with status := .picked_up, pickup_time := some now }))
          [(d.customer_id, "order_picked_up")]) := by
    simp [order_picked_up, hfind, hr]
  have h3 : start_delivery u deliveryId st
      = .ok (updateDelivery st deliveryId (fun x => { x with status := .in_transit })) := by
    simp [start_delivery, hfind, hr]
  have h4 : arrived_at_delivery u deliveryId st
      = .ok (pushNotes (updateDelivery st deliveryId (fun x => { x with status := .arrived }))
          [(d.customer_id, "rider_arrived")]) := by
    simp [arrived_at_delivery, hfind, hr]
  have h5 : complete_delivery now u deliveryId rn nt st
      = .ok (pushNotes (updateDelivery st deliveryId (completeUpdate now rn nt))
          [(d.customer_id, "delivery_completed"), (d.merchant_id, "delivery_completed")]) := by
    simp [complete_delivery, hfind, hr]
  refine ⟨?_, ⟨_, h1, ?_⟩, ⟨_, h2, ?_⟩, ⟨_, h3, ?_⟩, ⟨_, h4, ?_⟩, ⟨_, h5, ?_⟩⟩
  · simp [accept_delivery, hu, hfind, hs]
  · rw [findDelivery_pushNotes,
      findDelivery_updateDelivery st deliveryId
        (fun x => { x with status := .at_merchant }) (fun x => rfl), hfind]
    rfl
  · rw [findDelivery_pushNotes,
      findDelivery_updateDelivery st deliveryId
        (fun x => { x with status := .picked_up, pickup_time := some now }) (fun x => rfl), hfind]
    rfl
  · rw [findDelivery_updateDelivery st deliveryId
      (fun x => { x with status := .in_transit }) (fun x => rfl), hfind]
    rfl
  · rw [findDelivery_pushNotes,
      findDelivery_updateDelivery st deliveryId
        (fun x => { x with status := .arrived }) (fun x => rfl), hfind]
    rfl
  · rw [findDelivery_pushNotes,
      findDelivery_updateDelivery st deliveryId
        (completeUpdate now rn nt) (completeUpdate_id now rn nt), hfind]
    rfl

/-- Counterexample for C2 as stated: `complete` on a `rider_assigned`
delivery — the out-of-table transition `rider_assigned → delivered` — is
not rejected; it succeeds and changes the status to `delivered`. -/
theorem complete_from_rider_assigned_not_rejected :
    (complete_delivery 10 ⟨7, "rider"⟩ 1 none none (trackedState .rider_assigned)).toOption.map
        (fun st1 => (findDelivery st1 1).map Delivery.status)
      = some (some .delivered) := by rfl

/-- Witness for the amended C2 on a `rider_assigned` delivery. -/
theorem transitions_unvalidated_witness :
    accept_delivery 10 ⟨7, "rider"⟩ 1 (trackedState .rider_assigned)
        = .error ⟨400, "Delivery already assigned"⟩
    ∧ (∃ st1, arrived_at_merchant ⟨7, "rider"⟩ 1 (trackedState .rider_assigned) = .ok st1
        ∧ findDelivery st1 1 = some { trackedDelivery .rider_assigned with status := .at_merchant })
    ∧ (∃ st2, order_picked_up 10 ⟨7, "rider"⟩ 1 (trackedState .rider_assigned) = .ok st2
        ∧ findDelivery st2 1
            = some { trackedDelivery .rider_assigned with
                       status := .picked_up, pickup_time := some 10 })
    ∧ (∃ st3, start_delivery ⟨7, "rider"⟩ 1 (trackedState .rider_assigned) = .ok st3
        ∧ findDelivery st3 1 = some { trackedDelivery .rider_assigned with status := .in_transit })
    ∧ (∃ st4, arrived_at_delivery ⟨7, "rider"⟩ 1 (trackedState .rider_assigned) = .ok st4
        ∧ findDelivery st4 1 = some { trackedDelivery .rider_assigned with status := .arrived })
    ∧ (∃ st5, complete_delivery 10 ⟨7, "rider"⟩ 1 none none (trackedState .rider_assigned) = .ok st5
        ∧ findDelivery st5 1 = some (completeUpdate 10 none none (trackedDelivery .rider_assigned))) :=
  transitions_unvalidated 10 ⟨7, "rider"⟩ 1 (trackedState .rider_assigned)
    (trackedDelivery .rider_assigned) none none rfl rfl rfl (by decide)

/-- C5 (amended).  `cancel` is rejected only when the delivery is already
`delivered`; from every other status — including `picked_up`, `in_transit`,
`arrived` and even `cancelled` — an owner's cancel succeeds and overwrites
`status`, `cancel_reason` and `cancellation_time`. -/
theorem cancel_rejected_only_when_delivered (now : Nat) (u : User) (deliveryId : Nat)
    (st : AppState) (d : Delivery) (reason : Option String)
    (hfind : findDelivery st deliveryId = some d)
    (hown : d.customer_id = u.id ∨ d.rider_id = some u.id ∨ d.merchant_id = u.id) :
    (d.status = .delivered →
      cancel_delivery now u deliveryId reason st
        = .error ⟨400, "Cannot cancel completed delivery"⟩)
    ∧ (d.status ≠ .delivered →
      ∃ st1, cancel_delivery now u deliveryId reason st = .ok st1
        ∧ findDelivery st1 deliveryId = some (cancelUpdate now reason d)) := by
  constructor
  · intro hs
    simp [cancel_delivery, hfind, hown, hs]
  · intro hs
    have h1 : cancel_delivery now u deliveryId reason st
        = .ok (updateDelivery st deliveryId (cancelUpdate now reason)) := by
      simp [cancel_delivery, hfind, hown, hs]
    refine ⟨_, h1, ?_⟩
    rw [findDelivery_updateDelivery st deliveryId (cancelUpdate now reason) (fun x => rfl), hfind]
    rfl

/-- Counterexample for C5 as stated: cancelling a `picked_up` delivery is
not rejected; it succeeds and overwrites status, reason and time. -/
theorem cancel_after_pickup_not_rejected :
    (cancel_delivery 20 ⟨3, "customer"⟩ 1 (some "late") (trackedState .picked_up)).toOption.map
        (fun st1 => (findDelivery st1 1).map
          (fun d => (d.status, d.cancel_reason, d.cancellation_time)))
      = some (some (.cancelled, some "late", some 20)) := by rfl

/-- Witness for the amended C5: rejected on a `delivered` delivery,
applied on an `in_transit` one. -/
theorem cancel_rejected_only_when_delivered_witness :
    cancel_delivery 20 ⟨3, "customer"⟩ 1 (some "late") (trackedState .delivered)
        = .error ⟨400, "Cannot cancel completed delivery"⟩
    ∧ ∃ st1, cancel_delivery 20 ⟨3, "customer"⟩ 1 (some "late") (trackedState .in_transit)
        = .ok st1
      ∧ findDelivery st1 1 = some (cancelUpdate 20 (some "late") (trackedDelivery .in_transit)) :=
  ⟨(cancel_rejected_only_when_delivered 20 ⟨3, "customer"⟩ 1 (trackedState .delivered)
      (trackedDelivery .delivered) (some "late") rfl (Or.inl rfl)).1 rfl,
   (cancel_rejected_only_when_delivered 20 ⟨3, "customer"⟩ 1 (trackedState .in_transit)
      (trackedDelivery .in_transit) (some "late") rfl (Or.inl rfl)).2 (by decide)⟩

/-- C10.  On a `pending` delivery, any authenticated rider's `accept` sets
`rider_id` to the caller and advances the status to `rider_assigned`, while
the riders collection is left untouched and the outcome is entirely
independent of its content — the caller's courier record is neither checked
for availability nor modified, so `accept` bypasses the courier lock
protocol and can assign a `busy` or `offline` courier. -/
theorem accept_ignores_courier_record (now : Nat) (u : User) (deliveryId : Nat)
    (st : AppState) (d : Delivery)
    (hu : u.user_type = "rider") (hfind : findDelivery st deliveryId = some d)
    (hp : d.status = .pending) :
    ∃ st1, accept_delivery now u deliveryId st = .ok st1
      ∧ findDelivery st1 deliveryId
          = some { d with rider_id := some u.id, status := .rider_assigned,
                          rider_assigned_at := some now }
      ∧ st1.riders = st.riders
      ∧ ∀ rs : List Rider,
          accept_delivery now u deliveryId { st with riders := rs }
            = .ok { st1 with riders := rs } := by
  have h1 : accept_delivery now u deliveryId st
      = .ok (pushNotes (updateDelivery st deliveryId (fun x =>
            { x with rider_id := some u.id, status := .rider_assigned,
                     rider_assigned_at := some now }))
          [(d.customer_id, "rider_assigned"), (d.merchant_id, "rider_assigned")]) := by
    simp [accept_delivery, hu, hfind, hp]
  refine ⟨_, h1, ?_, rfl, ?_⟩
  · rw [findDelivery_pushNotes,
      findDelivery_updateDelivery st deliveryId
        (fun x => { x with rider_id := some u.id, status := .rider_assigned,
                           rider_assigned_at := some now }) (fun x => rfl), hfind]
    rfl
  · intro rs
    have hfind2 : findDelivery { st with riders := rs } deliveryId = some d := hfind
    simp [accept_delivery, hu, hfind2, hp, pushNotes, updateDelivery]

/-- Witness for C10: the accepting rider's own courier record is `busy`
and locked for another delivery, yet `accept` succeeds and the courier
record is untouched. -/
theorem accept_ignores_courier_record_witness :
    ∃ st1, accept_delivery 30 ⟨7, "rider"⟩ 1 pendingStateBusyRider = .ok st1
      ∧ findDelivery st1 1
          = some { pendingDelivery with
                   rider_id := some 7, status := .rider_assigned,
                   rider_assigned_at := some 30 }
      ∧ st1.riders = pendingStateBusyRider.riders
      ∧ ∀ rs : List Rider,
          accept_delivery 30 ⟨7, "rider"⟩ 1 { pendingStateBusyRider with riders := rs }
            = .ok { st1 with riders := rs } :=
  accept_ignores_courier_record 30 ⟨7, "rider"⟩ 1 pendingStateBusyRider pendingDelivery
    rfl rfl rfl

/-- C4.  The active-delivery check of `request_delivery` (matching.py line
148) omits `arrived` from its status list, although the spec's invariant
and the `get_active_delivery` route (trips.py line 67) both count `arrived`
as active: a customer whose only delivery is in status `arrived` is not
rejected — the request succeeds and a second delivery is inserted — while
the same request against an `in_transit` delivery is rejected with the
conflict error and no insert. -/
theorem request_delivery_ignores_arrived_delivery :
    (request_delivery (fun _ _ => 1) false 2 3 sampleRequestData
        (trackedState .arrived)).toOption.map
        (fun p => (p.1.status, p.2.deliveries.length))
      = some (.pending, 2)
    ∧ request_delivery (fun _ _ => 1) false 2 3 sampleRequestData (trackedState .in_transit)
      = .error "Customer already has an active delivery" := by
  constructor
  · rfl
  · rfl

/-- Shape of the search-call trace of the assignment loop: at most `fuel`
calls; the call at position `k` uses radius `5 + 2 * (attempt + k)` km and
passes exactly the `attempted` exclusion list the loop was entered with;
and every call that is followed by another call returned no match (a
successful lock always ends the loop at that call). -/
theorem assignAttempts_calls (dist : GeoPoint → GeoPoint → ℚ) (now deliveryId : Nat)
    (pickup : GeoPoint) (vt : String) (customerId : Nat) :
    ∀ (fuel attempt : Nat) (attempted : List Nat) (st : AppState),
      (assignAttempts dist now deliveryId pickup vt customerId fuel attempt attempted st).1.length
          ≤ fuel
      ∧ ∀ k call,
          (assignAttempts dist now deliveryId pickup vt customerId
              fuel attempt attempted st).1.get? k = some call →
            call.radius_km = ((5 + 2 * (attempt + k) : Nat) : ℚ)
            ∧ call.excluded = attempted
            ∧ ((assignAttempts dist now deliveryId pickup vt customerId
                  fuel attempt attempted st).1.get? (k + 1) ≠ none →
                call.result = none) := by
  intro fuel
  induction fuel with
  | zero =>
    intro attempt attempted st
    refine ⟨by simp [assignAttempts], ?_⟩
    intro k call hk
    simp [assignAttempts] at hk
  | succ fuel ih =>
    intro attempt attempted st
    rcases hstep : find_and_lock_rider dist pickup vt deliveryId attempted
        ((5 + 2 * attempt : Nat) : ℚ) now st.riders with ⟨res, riders1⟩
    cases res with
    | none =>
      have hunfold : (assignAttempts dist now deliveryId pickup vt customerId
            (fuel + 1) attempt attempted st).1
          = ⟨((5 + 2 * attempt : Nat) : ℚ), attempted, none⟩
              :: (assignAttempts dist now deliveryId pickup vt customerId
                    fuel (attempt + 1) attempted { st with riders := riders1 }).1 := by
        simp only [assignAttempts, hstep]
      have hrec := ih (attempt + 1) attempted { st with riders := riders1 }
      constructor
      · rw [hunfold]
        simpa using hrec.1
      · intro k call hk
        rw [hunfold] at hk
        match k, hk with
        | 0, hk =>
          simp only [List.get?_cons_zero, Option.some.injEq] at hk
          subst hk
          refine ⟨by norm_num, rfl, fun _ => rfl⟩
        | k + 1, hk =>
          simp only [List.get?_cons_succ] at hk
          have hcall := hrec.2 k call hk
          refine ⟨?_, hcall.2.1, ?_⟩
          · rw [hcall.1]
            have harith : (attempt + 1) + k = attempt + (k + 1) := by omega
            rw [harith]
          · intro hnext
            rw [hunfold] at hnext
            simp only [List.get?_cons_succ] at hnext
            exact hcall.2.2 hnext
    | some r =>
      by_cases hpend : st.deliveries.any (stillPendingFilter deliveryId) = true
      · have hunfold : (assignAttempts dist now deliveryId pickup vt customerId
              (fuel + 1) attempt attempted st).1
            = [⟨((5 + 2 * attempt : Nat) : ℚ), attempted, some r.id⟩] := by
          simp only [assignAttempts, hstep]
          rw [if_pos hpend]
        constructor
        · rw [hunfold]
          simp
        · intro k call hk
          rw [hunfold] at hk
          match k, hk with
          | 0, hk =>
            simp only [List.get?_cons_zero, Option.some.injEq] at hk
            subst hk
            refine ⟨by norm_num, rfl, ?_⟩
            intro hnext
            rw [hunfold] at hnext
            simp at hnext
      · have hunfold : (assignAttempts dist now deliveryId pickup vt customerId
              (fuel + 1) attempt attempted st).1
            = [⟨((5 + 2 * attempt : Nat) : ℚ), attempted, some r.id⟩] := by
          simp only [assignAttempts, hstep]
          rw [if_neg hpend]
        constructor
        · rw [hunfold]
          simp
        · intro k call hk
          rw [hunfold] at hk
          match k, hk with
          | 0, hk =>
            simp only [List.get?_cons_zero, Option.some.injEq] at hk
            subst hk
            refine ⟨by norm_num, rfl, ?_⟩
            intro hnext
            rw [hunfold] at hnext
            simp at hnext

/-- C6.  The assignment loop performs at most 3 courier searches; the
search at attempt `i` uses radius `5 + 2·i` km, and its exclusion list
contains every courier returned by an earlier attempt's search of the same
delivery — which holds because a returned (locked) courier always ends the
loop at that attempt, so attempts after the first tried courier never
happen, and the loop's accumulated exclusion list (initialised to `[]` and
never appended to in the source) is passed unchanged to every search. -/
theorem assign_loop_radius_and_exclusions (dist : GeoPoint → GeoPoint → ℚ)
    (now deliveryId : Nat) (pickup : GeoPoint) (vt : String) (customerId : Nat)
    (st : AppState) (calls : List SearchCall)
    (hcalls : calls = (assign_rider_with_lock dist now deliveryId pickup vt customerId st).1) :
    calls.length ≤ 3
    ∧ ∀ i call, calls.get? i = some call →
        call.radius_km = 5 + 2 * (i : Nat)
        ∧ ∀ j c prev, j < i → calls.get? j = some prev → prev.result = some c →
            c ∈ call.excluded := by
  subst hcalls
  have h := assignAttempts_calls dist now deliveryId pickup vt customerId 3 0 [] st
  refine ⟨h.1, ?_⟩
  intro i call hi
  have hcall := h.2 i call hi
  refine ⟨by rw [hcall.1]; push_cast; ring, ?_⟩
  intro j c prev hj hjget hres
  have hprev := h.2 j prev hjget
  have hilen : i < (assign_rider_with_lock dist now deliveryId pickup vt customerId st).1.length :=
    List.get?_eq_some.mp hi |>.1
  have hnext : (assign_rider_with_lock dist now deliveryId pickup vt customerId st).1.get?
      (j + 1) ≠ none := by
    intro hnone
    rw [List.get?_eq_none] at hnone
    omega
  have := hprev.2.2 hnext
  rw [this] at hres
  exact absurd hres (by simp)

/-- Witness for C6: empty rider pool, all three searches run; radii are
5, 7, 9 km with the empty exclusion list throughout. -/
theorem assign_loop_radius_and_exclusions_witness :
    (assign_rider_with_lock (fun _ _ => 100) 9 1 ⟨0, 0⟩ "bike" 3 pendingStateNoRiders).1.length ≤ 3
    ∧ ∀ i call,
        (assign_rider_with_lock (fun _ _ => 100) 9 1 ⟨0, 0⟩ "bike" 3
            pendingStateNoRiders).1.get? i = some call →
        call.radius_km = 5 + 2 * (i : Nat)
        ∧ ∀ j c prev, j < i →
            (assign_rider_with_lock (fun _ _ => 100) 9 1 ⟨0, 0⟩ "bike" 3
                pendingStateNoRiders).1.get? j = some prev →
            prev.result = some c → c ∈ call.excluded :=
  assign_loop_radius_and_exclusions (fun _ _ => 100) 9 1 ⟨0, 0⟩ "bike" 3
    pendingStateNoRiders _ rfl

/-- C7 (amended).  When the first search locks the unique matching courier
but the conditional `pending → rider_assigned` transition fails because the
delivery is no longer `pending`, the loop stops after rolling the courier
back: the courier's status is restored to `available` and
`locked_for_delivery` is cleared, but `locked_at` is left holding the lock
timestamp — the rollback's `$set` (matching.py lines 231-234) does not
mention it; no other courier field, and no other part of the state, is
modified. -/
theorem assign_rollback_keeps_locked_at (dist : GeoPoint → GeoPoint → ℚ)
    (now deliveryId : Nat) (pickup : GeoPoint) (vt : String) (customerId : Nat)
    (st : AppState) (c : Rider)
    (hone : st.riders.filter (riderMatches dist pickup vt [] 5) = [c])
    (hnp : st.deliveries.any (stillPendingFilter deliveryId) = false) :
    assign_rider_with_lock dist now deliveryId pickup vt customerId st
      = ([⟨5, [], some c.id⟩],
         { st with riders := rollbackResultRiders now c.id st.riders }) := by
  have hrad : ((5 + 2 * 0 : Nat) : ℚ) = 5 := by norm_num
  have hfal : find_and_lock_rider dist pickup vt deliveryId [] ((5 + 2 * 0 : Nat) : ℚ)
      now st.riders
      = (some (lockUpdate deliveryId now c),
         updateOne (fun x => decide (x.id = c.id)) (lockUpdate deliveryId now) st.riders) := by
    rw [hrad]
    rw [find_and_lock_rider, nearestMatch_singleton dist pickup vt [] 5 st.riders c hone]
  have hcomp : updateOne (fun x => decide (x.id = c.id)) rollbackRelease
        (updateOne (fun x => decide (x.id = c.id)) (lockUpdate deliveryId now) st.riders)
      = rollbackResultRiders now c.id st.riders := by
    have hg : ∀ x : Rider,
        (fun y : Rider => decide (y.id = c.id)) (lockUpdate deliveryId now x)
          = (fun y : Rider => decide (y.id = c.id)) x := fun x => rfl
    rw [updateOne_updateOne (fun y : Rider => decide (y.id = c.id)) rollbackRelease
      (lockUpdate deliveryId now) st.riders hg]
    rfl
  show assignAttempts dist now deliveryId pickup vt customerId 3 0 [] st = _
  simp only [assignAttempts, hfal]
  rw [if_neg (by simp [hnp])]
  rw [show (lockUpdate deliveryId now c).id = c.id from rfl]
  rw [hcomp, hrad]

/-- Counterexample for C7 as stated: after the rollback at a concrete
input, the courier's `locked_at` still holds the lock time 42 — it is not
cleared. -/
theorem assign_rollback_locked_at_not_cleared :
    ((assign_rider_with_lock (fun _ _ => 1) 42 1 ⟨0, 0⟩ "bike" 3
        cancelledStateOneRider).2.riders.map Rider.locked_at) = [some 42]
    ∧ [some (42 : Nat)] ≠ [(none : Option Nat)] := by
  constructor
  · decide
  · decide

/-- Witness for the amended C7 at the same concrete input. -/
theorem assign_rollback_keeps_locked_at_witness :
    assign_rider_with_lock (fun _ _ => 1) 42 1 ⟨0, 0⟩ "bike" 3 cancelledStateOneRider
      = ([⟨5, [], some availableRiderOne.id⟩],
         { cancelledStateOneRider with
           riders := rollbackResultRiders 42 availableRiderOne.id cancelledStateOneRider.riders }) :=
  assign_rollback_keeps_locked_at (fun _ _ => 1) 42 1 ⟨0, 0⟩ "bike" 3
    cancelledStateOneRider availableRiderOne (by decide) (by decide)

end Ihhashi
